import Mathlib

/-!
Verification development for the Vulkan validation layer state-tracking core
(`layers/cmd_buffer_state.h` and `layers/wsi_validation.cpp`).

The C++ code is shallowly embedded: machine integers become `Nat` (with
explicit `% 2^32` where 32-bit wrap matters), nullable pointers become
`Option`, handle lookups (`Get<T>`) become explicit `Option`-valued inputs or
lookup functions, and each validation function is modelled as a computable
function returning the set of errors it logs.  `LogError`'s boolean return
value (the "break on error" abort policy) is modelled as `false`, so a
validation function logs every error whose condition holds, which matches the
layer's default configuration.
-/

namespace VVL

/-- Value of `UINT64_MAX`, the unbounded-wait timeout sentinel. -/
def UINT64_MAX : Nat := 18446744073709551615

/-- One past the largest `uint32_t` value, i.e. `2^32`. -/
def UINT32_LIMIT : Nat := 4294967296

/-- Value of `VK_QUEUE_FAMILY_IGNORED` (`~0U`). -/
def VK_QUEUE_FAMILY_IGNORED : Nat := 4294967295

/-- Value of `VK_QUEUE_FAMILY_EXTERNAL` (`~0U - 1`). -/
def VK_QUEUE_FAMILY_EXTERNAL : Nat := 4294967294

/-- Unsigned 32-bit subtraction: `a - b` computed modulo `2^32`, as the C++
expression `a - b` evaluates when both operands are `uint32_t`.  Inputs are
reduced modulo `2^32` first, so the function agrees with machine arithmetic on
every `Nat`. -/
def sub32 (a b : Nat) : Nat := (a % UINT32_LIMIT + (UINT32_LIMIT - b % UINT32_LIMIT)) % UINT32_LIMIT

/-! ## Command pool / command buffer model (`cmd_buffer_state.h`) -/

/-- Recording state of a command buffer (`enum CB_STATE`). -/
inductive CB_STATE
  | CB_NEW
  | CB_RECORDING
  | CB_RECORDED
  | CB_INVALID_COMPLETE
  | CB_INVALID_INCOMPLETE
deriving DecidableEq

/-- Bind points indexing the `lastBound` array (`LvlBindPoint`,
`BindPoint_Count = 3`). -/
inductive LvlBindPoint
  | graphics
  | compute
  | rayTracing
deriving DecidableEq

/-- Per-bind-point last-bound slot (`LAST_BOUND_STATE`); only the
`pipeline_state` pointer (modelled as an optional handle) is touched by the
embedded operations. -/
structure LAST_BOUND_STATE where
  pipeline_state : Option Nat
deriving DecidableEq

/-- Command pool state (`COMMAND_POOL_STATE`): the fields read by the embedded
command-buffer operations. -/
structure COMMAND_POOL_STATE where
  createFlags : Nat
  queueFamilyIndex : Nat
  queue_flags : Nat
  unprotected : Bool
deriving DecidableEq

/-- A barrier with explicit queue-family fields, i.e. the payload common to
`VkBufferMemoryBarrier`, `VkImageMemoryBarrier` and their `2KHR` variants. -/
structure QFBarrier where
  srcQueueFamilyIndex : Nat
  dstQueueFamilyIndex : Nat
deriving DecidableEq

/-- The barrier kinds `CMD_BUFFER_STATE::IsReleaseOp` / `IsAcquireOp` are
instantiated at: barriers carrying queue-family fields, and the three kinds
for which the header provides specializations returning `false`
(`VkMemoryBarrier`, `VkMemoryBarrier2KHR`, `VkSubpassDependency2`). -/
inductive Barrier
  | withQueueFamilies (b : QFBarrier)
  | memoryBarrier
  | memoryBarrier2KHR
  | subpassDependency2
deriving DecidableEq

/-- True for the barrier kinds that carry queue-family fields. -/
def Barrier.hasQueueFamilies : Barrier → Bool
  | .withQueueFamilies _ => true
  | .memoryBarrier => false
  | .memoryBarrier2KHR => false
  | .subpassDependency2 => false

/-- Modelled from the spec: `IsTransferOp` is defined in `qfo_transfer.h`,
which is not among the shown sources.  Per the spec, a barrier is an actual
ownership-transfer barrier exactly when its source and destination families
differ and neither is the "external"/"ignored" sentinel value. -/
def IsTransferOp (b : QFBarrier) : Bool :=
  b.srcQueueFamilyIndex != b.dstQueueFamilyIndex &&
  b.srcQueueFamilyIndex != VK_QUEUE_FAMILY_IGNORED &&
  b.dstQueueFamilyIndex != VK_QUEUE_FAMILY_IGNORED &&
  b.srcQueueFamilyIndex != VK_QUEUE_FAMILY_EXTERNAL &&
  b.dstQueueFamilyIndex != VK_QUEUE_FAMILY_EXTERNAL

/-- Command buffer state (`CMD_BUFFER_STATE`): the fields involved in the
embedded operations, with `lastBound` as a total map over the three bind
points. -/
structure CMD_BUFFER_STATE where
  command_pool : COMMAND_POOL_STATE
  state : CB_STATE
  commandCount : Nat
  submitCount : Nat
  pipeline_bound : Bool
  status : Nat
  static_status : Nat
  dynamic_status : Nat
  has_draw_cmd : Bool
  lastBound : LvlBindPoint → LAST_BOUND_STATE

/-- Embeds `CMD_BUFFER_STATE::IsReleaseOp` (cmd_buffer_state.h:442-445)
together with its three specializations (cmd_buffer_state.h:540-551):
`IsTransferOp(barrier) && command_pool->queueFamilyIndex ==
barrier.srcQueueFamilyIndex` for barriers with queue-family fields, `false`
for `VkMemoryBarrier`, `VkMemoryBarrier2KHR` and `VkSubpassDependency2`. -/
def CMD_BUFFER_STATE.IsReleaseOp (cb : CMD_BUFFER_STATE) : Barrier → Bool
  | .withQueueFamilies b => IsTransferOp b && (cb.command_pool.queueFamilyIndex == b.srcQueueFamilyIndex)
  | .memoryBarrier => false
  | .memoryBarrier2KHR => false
  | .subpassDependency2 => false

/-- Embeds `CMD_BUFFER_STATE::IsAcquireOp` (cmd_buffer_state.h:446-449)
together with its three specializations (cmd_buffer_state.h:552-563). -/
def CMD_BUFFER_STATE.IsAcquireOp (cb : CMD_BUFFER_STATE) : Barrier → Bool
  | .withQueueFamilies b => IsTransferOp b && (cb.command_pool.queueFamilyIndex == b.dstQueueFamilyIndex)
  | .memoryBarrier => false
  | .memoryBarrier2KHR => false
  | .subpassDependency2 => false

/-- Embeds `CMD_BUFFER_STATE::BindPipeline` (cmd_buffer_state.h:528-531):
`lastBound[bind_point].pipeline_state = pipe_state; pipeline_bound = true;`. -/
def CMD_BUFFER_STATE.BindPipeline (cb : CMD_BUFFER_STATE) (bind_point : LvlBindPoint)
    (pipe_state : Option Nat) : CMD_BUFFER_STATE :=
  { cb with
    lastBound := fun bp =>
      if bp = bind_point then { cb.lastBound bp with pipeline_state := pipe_state }
      else cb.lastBound bp
    pipeline_bound := true }

/-! ## Swapchain / WSI model (`wsi_validation.cpp`) -/

/-- Vulkan layout code for `VK_IMAGE_LAYOUT_PRESENT_SRC_KHR`. -/
def VK_IMAGE_LAYOUT_PRESENT_SRC_KHR : Nat := 1000001002

/-- Vulkan layout code for `VK_IMAGE_LAYOUT_SHARED_PRESENT_KHR`. -/
def VK_IMAGE_LAYOUT_SHARED_PRESENT_KHR : Nat := 1000111000

/-- Image state (`IMAGE_STATE`): its handle, plus its tracked layouts.
Modelled from the spec: `CoreChecks::FindLayouts` (the global image-layout
map query, not among the shown sources) is abstracted as the list of layouts
currently tracked for the image; an empty list plays the role of
`FindLayouts` returning no layouts. -/
structure IMAGE_STATE where
  image : Nat
  tracked_layouts : List Nat
deriving DecidableEq

/-- Per-index swapchain image record (`SWAPCHAIN_IMAGE`): the underlying
image state (nullable) and the acquired flag. -/
structure SWAPCHAIN_IMAGE where
  image_state : Option IMAGE_STATE
  acquired : Bool
deriving DecidableEq

/-- Surface capabilities (`VkSurfaceCapabilitiesKHR`): only `minImageCount`
is read by the embedded checks.  A value-initialized `caps{}` has
`minImageCount = 0`. -/
structure VkSurfaceCapabilitiesKHR where
  minImageCount : Nat
deriving DecidableEq

/-- Surface state (`SURFACE_STATE`): `GetCapabilities(physical_device)` (not
among the shown sources) is abstracted as a stored capabilities value. -/
structure SURFACE_STATE where
  capabilities : VkSurfaceCapabilitiesKHR
deriving DecidableEq

/-- The fields of `VkSwapchainCreateInfoKHR` read by the embedded checks. -/
structure VkSwapchainCreateInfo where
  surface : Nat
  preTransform : Nat
  imageExtentWidth : Nat
  imageExtentHeight : Nat
  imageArrayLayers : Nat
deriving DecidableEq

/-- Swapchain state (`SWAPCHAIN_NODE`): the fields read by the embedded
checks. -/
structure SWAPCHAIN_NODE where
  createInfo : VkSwapchainCreateInfo
  retired : Bool
  acquired_images : Nat
  images : List SWAPCHAIN_IMAGE
  surface : Option SURFACE_STATE
  max_present_id : Nat
deriving DecidableEq

/-- Semaphore state (`SEMAPHORE_STATE`): whether the type is
`VK_SEMAPHORE_TYPE_BINARY`, whether `Scope()` is `kSyncScopeInternal`, and
the result of `CanBeSignaled()` (both methods live outside the shown
sources and are abstracted as stored values). -/
structure SEMAPHORE_STATE where
  binaryType : Bool
  scopeInternal : Bool
  canBeSignaled : Bool
deriving DecidableEq

/-- The pieces of `CoreChecks` device/instance state read by the embedded
checks. -/
structure CoreChecksConfig where
  surfaceless_query_enabled : Bool
  surfaceless_caps : VkSurfaceCapabilitiesKHR
deriving DecidableEq

/-- The individual errors `CoreChecks::ValidateAcquireNextImage` can log,
one flag per `LogError` site. -/
structure AcquireChecksResult where
  semaphore_not_binary : Bool
  semaphore_already_signaled : Bool
  fence_error : Bool
  swapchain_retired : Bool
  too_many_acquired : Bool
deriving DecidableEq

/-- The capabilities used by the acquire bound check
(wsi_validation.cpp:805-810): the swapchain's surface capabilities if it has
a surface, else the surfaceless-query capabilities when that instance
extension is enabled, else a value-initialized `caps{}`. -/
def acquireCaps (cc : CoreChecksConfig) (sw : SWAPCHAIN_NODE) : VkSurfaceCapabilitiesKHR :=
  match sw.surface with
  | some surf => surf.capabilities
  | none => if cc.surfaceless_query_enabled then cc.surfaceless_caps else { minImageCount := 0 }

/-- Embeds `CoreChecks::ValidateAcquireNextImage` (wsi_validation.cpp:761-826).
The handle lookups are passed as their `Option`-valued results; the external
`ValidateFenceForSubmit` call is passed as its boolean outcome
(`fence_error`); `timeout` is the `uint64_t` argument.  The acquire bound is
computed exactly as the source does, in unsigned 32-bit arithmetic:
`acquired_images > swapchain_image_count - min_image_count`. -/
def ValidateAcquireNextImage (cc : CoreChecksConfig) (semaphore_state : Option SEMAPHORE_STATE)
    (fence_error : Bool) (swapchain_data : Option SWAPCHAIN_NODE) (timeout : Nat) :
    AcquireChecksResult :=
  let semNotBinary :=
    match semaphore_state with
    | some s => !s.binaryType
    | none => false
  let semSignaled :=
    match semaphore_state with
    | some s => s.binaryType && s.scopeInternal && !s.canBeSignaled
    | none => false
  match swapchain_data with
  | none =>
    { semaphore_not_binary := semNotBinary
      semaphore_already_signaled := semSignaled
      fence_error := fence_error
      swapchain_retired := false
      too_many_acquired := false }
  | some sw =>
    let acquired_images := sw.acquired_images
    let swapchain_image_count := sw.images.length % UINT32_LIMIT
    let min_image_count := (acquireCaps cc sw).minImageCount
    let too_many_already_acquired := acquired_images > sub32 swapchain_image_count min_image_count
    { semaphore_not_binary := semNotBinary
      semaphore_already_signaled := semSignaled
      fence_error := fence_error
      swapchain_retired := sw.retired
      too_many_acquired := timeout == UINT64_MAX && too_many_already_acquired }

/-- The errors `CoreChecks::PreCallValidateWaitForPresentKHR` can log. -/
structure WaitForPresentResult where
  present_wait_feature_disabled : Bool
  swapchain_retired : Bool
deriving DecidableEq

/-- Embeds `CoreChecks::PreCallValidateWaitForPresentKHR`
(wsi_validation.cpp:847-861).  `presentWaitFeature` is
`enabled_features.present_wait_features.presentWait`; the swapchain lookup
is passed as its result; `presentId` and `timeout` are unused by the
checks, as in the source. -/
def PreCallValidateWaitForPresentKHR (presentWaitFeature : Bool)
    (swapchain_state : Option SWAPCHAIN_NODE) (_presentId _timeout : Nat) :
    WaitForPresentResult :=
  { present_wait_feature_disabled := !presentWaitFeature
    swapchain_retired :=
      match swapchain_state with
      | some s => s.retired
      | none => false }

/-- The errors logged by the `oldSwapchain` section of
`CoreChecks::ValidateCreateSwapchain`. -/
inductive SwapchainCreateError
  | oldSwapchainSurfaceMismatch
  | oldSwapchainRetired
deriving DecidableEq

/-- Embeds the `old_swapchain_state` checks of
`CoreChecks::ValidateCreateSwapchain` (wsi_validation.cpp:107-120): a
surface-mismatch error when the old swapchain's surface differs from
`pCreateInfo->surface`, and a retirement error when the old swapchain is
retired. -/
def validateCreateSwapchainOldSwapchain (old_swapchain_state : Option SWAPCHAIN_NODE)
    (createInfoSurface : Nat) : List SwapchainCreateError :=
  match old_swapchain_state with
  | none => []
  | some old =>
    (if old.createInfo.surface ≠ createInfoSurface then [.oldSwapchainSurfaceMismatch] else []) ++
    (if old.retired then [.oldSwapchainRetired] else [])

/-- The per-swapchain-entry errors of the acquired/layout section of
`CoreChecks::PreCallValidateQueuePresentKHR`. -/
inductive PresentImageError
  | imageIndexTooLarge
  | imageNotAcquired
  | invalidLayout (layout : Nat)
deriving DecidableEq

/-- Embeds the per-swapchain-entry image checks of
`CoreChecks::PreCallValidateQueuePresentKHR` (wsi_validation.cpp:579-613):
an index-too-large error when `pImageIndices[i] >= images.size()`, a
not-acquired error when the record at that index has no image state or its
acquired flag is unset, and otherwise one invalid-layout error for every
tracked layout that is neither `VK_IMAGE_LAYOUT_PRESENT_SRC_KHR` nor (when
the shared-presentable-image extension is enabled)
`VK_IMAGE_LAYOUT_SHARED_PRESENT_KHR`. -/
def validatePresentedImage (sharedPresentableExt : Bool) (sw : SWAPCHAIN_NODE)
    (imageIndex : Nat) : List PresentImageError :=
  if sw.images.length ≤ imageIndex then [.imageIndexTooLarge]
  else
    let record := sw.images.getD imageIndex { image_state := none, acquired := false }
    match record.image_state with
    | none => [.imageNotAcquired]
    | some image_state =>
      if !record.acquired then [.imageNotAcquired]
      else
        image_state.tracked_layouts.filterMap fun layout =>
          if layout ≠ VK_IMAGE_LAYOUT_PRESENT_SRC_KHR ∧
             (!sharedPresentableExt ∨ layout ≠ VK_IMAGE_LAYOUT_SHARED_PRESENT_KHR) then
            some (.invalidLayout layout)
          else none

/-- A present-region rectangle (`VkRectLayerKHR`): `offset.x`/`offset.y` are
`int32_t`, `extent.width`/`extent.height` and `layer` are `uint32_t`. -/
structure VkRectLayerKHR where
  offsetX : Int
  offsetY : Int
  extentWidth : Nat
  extentHeight : Nat
  layer : Nat
deriving DecidableEq

/-- The preTransform bits that trigger the offset/extent swap
(wsi_validation.cpp:655-658): `VK_SURFACE_TRANSFORM_ROTATE_90_BIT_KHR (2) |
ROTATE_270 (8) | HORIZONTAL_MIRROR_ROTATE_90 (32) |
HORIZONTAL_MIRROR_ROTATE_270 (128)`. -/
def rotationSwapMask : Nat := 2 ||| 8 ||| 32 ||| 128

/-- Embeds the offset/extent swap (wsi_validation.cpp:654-661): when the
swapchain's preTransform intersects the 90/270-degree rotation mask, the
rectangle's `offset.x`/`offset.y` and `extent.width`/`extent.height` are
swapped. -/
def swapForPreTransform (preTransform : Nat) (r : VkRectLayerKHR) : VkRectLayerKHR :=
  if preTransform &&& rotationSwapMask ≠ 0 then
    { r with
      offsetX := r.offsetY
      offsetY := r.offsetX
      extentWidth := r.extentHeight
      extentHeight := r.extentWidth }
  else r

/-- Result of the C++ expression `rect.offset.x + rect.extent.width`, where
`offset.x` is `int32_t` and `extent.width` is `uint32_t`: by the usual
arithmetic conversions both operands are converted to `unsigned int`, so the
sum is computed modulo `2^32` (a negative offset wraps to a large value). -/
def u32sum (offset : Int) (extent : Nat) : Nat :=
  ((offset + (extent : Int)) % ((UINT32_LIMIT : Nat) : Int)).toNat

/-- The per-rectangle errors of the `VkPresentRegionsKHR` section of
`CoreChecks::PreCallValidateQueuePresentKHR`. -/
inductive PresentRegionError
  | widthExceeded
  | heightExceeded
  | layerExceeded
deriving DecidableEq

/-- Embeds the per-rectangle checks of the `VkPresentRegionsKHR` section of
`CoreChecks::PreCallValidateQueuePresentKHR` (wsi_validation.cpp:652-689):
after the preTransform swap, an error when `offset.x + extent.width`
(computed as `uint32_t`) exceeds the swapchain's `imageExtent.width`, an
error when `offset.y + extent.height` exceeds `imageExtent.height`, and an
error when `layer` exceeds `imageArrayLayers`. -/
def validatePresentRegionRect (createInfo : VkSwapchainCreateInfo)
    (r : VkRectLayerKHR) : List PresentRegionError :=
  let rect := swapForPreTransform createInfo.preTransform r
  (if u32sum rect.offsetX rect.extentWidth > createInfo.imageExtentWidth then
      [.widthExceeded] else []) ++
  (if u32sum rect.offsetY rect.extentHeight > createInfo.imageExtentHeight then
      [.heightExceeded] else []) ++
  (if rect.layer > createInfo.imageArrayLayers then [.layerExceeded] else [])

/-- The `VkPresentIdKHR` structure from the `pNext` chain of
`VkPresentInfoKHR`: its own swapchain count and the `pPresentIds` array
(`uint64_t` values, read by index). -/
structure VkPresentIdKHR where
  swapchainCount : Nat
  pPresentIds : List Nat
deriving DecidableEq

/-- The errors of the `VkPresentIdKHR` section of
`CoreChecks::PreCallValidateQueuePresentKHR`. -/
inductive PresentIdError
  | featureDisabled (i : Nat)
  | swapchainCountMismatch
  | nonIncreasing (i : Nat)
deriving DecidableEq

/-- Embeds the `VkPresentIdKHR` section of
`CoreChecks::PreCallValidateQueuePresentKHR` (wsi_validation.cpp:705-737):
when the presentId feature is disabled, an error for every nonzero entry; an
error when the structure's swapchain count differs from the present info's;
and, for every entry `i`, a non-increasing error exactly when
`pPresentIds[i]` is nonzero and at most the corresponding swapchain's
`max_present_id`.  The swapchain lookup `Get<SWAPCHAIN_NODE>(pSwapchains[i])`
is abstracted as the function `maxPresentId` from the entry index to that
swapchain's watermark. -/
def presentIdChecks (presentIdFeature : Bool) (presentInfoSwapchainCount : Nat)
    (info : VkPresentIdKHR) (maxPresentId : Nat → Nat) : List PresentIdError :=
  (if !presentIdFeature then
      (List.range info.swapchainCount).filterMap fun i =>
        if info.pPresentIds.getD i 0 ≠ 0 then some (.featureDisabled i) else none
    else []) ++
  (if presentInfoSwapchainCount ≠ info.swapchainCount then [.swapchainCountMismatch] else []) ++
  ((List.range info.swapchainCount).filterMap fun i =>
    if info.pPresentIds.getD i 0 ≠ 0 ∧ info.pPresentIds.getD i 0 ≤ maxPresentId i then
      some (.nonIncreasing i)
    else none)

/-- Embeds the erasure loop of
`CoreChecks::PreCallRecordDestroySwapchainKHR` (wsi_validation.cpp:516-519):
for each swapchain image record, records with no image state are skipped,
and otherwise the map entry keyed by that image's handle is erased.  The
`qfo_release_image_barrier_map` is modelled as an association list from
image handles to barrier sets. -/
def eraseQfoKeysOfSwapchainImages {α : Type} (m : List (Nat × α))
    (images : List SWAPCHAIN_IMAGE) : List (Nat × α) :=
  images.foldl
    (fun acc swapchain_image =>
      match swapchain_image.image_state with
      | none => acc
      | some image_state => acc.filter fun kv => kv.fst ≠ image_state.image)
    m

/-- Embeds `CoreChecks::PreCallRecordDestroySwapchainKHR`
(wsi_validation.cpp:511-523) restricted to its effect on
`qfo_release_image_barrier_map`: when the swapchain handle is non-null
(`≠ 0`) and its state is known, the entries keyed by its images' handles are
erased; the trailing `StateTracker::PreCallRecordDestroySwapchainKHR` call
does not touch this map. -/
def PreCallRecordDestroySwapchainKHR {α : Type} (get : Nat → Option SWAPCHAIN_NODE)
    (m : List (Nat × α)) (swapchain : Nat) : List (Nat × α) :=
  if swapchain ≠ 0 then
    match get swapchain with
    | some swapchain_data => eraseQfoKeysOfSwapchainImages m swapchain_data.images
    | none => m
  else m

/-- The image handles a swapchain's destruction erases from the
queue-family-transfer map: those of its image records that carry an image
state. -/
def swapchainImageKeys (images : List SWAPCHAIN_IMAGE) : List Nat :=
  images.filterMap fun swapchain_image =>
    swapchain_image.image_state.map fun image_state => image_state.image

/-! ## Concrete sample states, used to instantiate the theorems below -/

/-- A command pool owned by queue family 1. -/
def samplePool : COMMAND_POOL_STATE :=
  { createFlags := 0, queueFamilyIndex := 1, queue_flags := 0, unprotected := true }

/-- A recording command buffer allocated from `samplePool`, with nothing
bound. -/
def sampleCmdBuffer : CMD_BUFFER_STATE :=
  { command_pool := samplePool
    state := .CB_RECORDING
    commandCount := 0
    submitCount := 0
    pipeline_bound := false
    status := 0
    static_status := 0
    dynamic_status := 0
    has_draw_cmd := false
    lastBound := fun _ => { pipeline_state := none } }

/-- Device/instance configuration with the surfaceless-query extension
disabled. -/
def defaultConfig : CoreChecksConfig :=
  { surfaceless_query_enabled := false, surfaceless_caps := { minImageCount := 0 } }

/-- Swapchain creation parameters: identity preTransform, a 10x10 extent,
one array layer. -/
def sampleCreateInfo : VkSwapchainCreateInfo :=
  { surface := 1, preTransform := 1, imageExtentWidth := 10, imageExtentHeight := 10,
    imageArrayLayers := 1 }

/-- A live swapchain whose image list has not been populated yet
(`GetSwapchainImages` not called), with one image acquired and a surface
reporting `minImageCount = 1`. -/
def unpopulatedSwapchain : SWAPCHAIN_NODE :=
  { createInfo := sampleCreateInfo, retired := false, acquired_images := 1, images := [],
    surface := some { capabilities := { minImageCount := 1 } }, max_present_id := 0 }

/-- A swapchain whose surface reports the extreme capability
`minImageCount = 2^32 - 1`, with an empty image list and two images
acquired. -/
def hugeMinCapsSwapchain : SWAPCHAIN_NODE :=
  { createInfo := sampleCreateInfo, retired := false, acquired_images := 2, images := [],
    surface := some { capabilities := { minImageCount := 4294967295 } }, max_present_id := 0 }

/-- A three-image swapchain with all three images acquired and a surface
reporting `minImageCount = 2`. -/
def threeImageSwapchain : SWAPCHAIN_NODE :=
  { createInfo := sampleCreateInfo, retired := false, acquired_images := 3,
    images :=
      [ { image_state := some { image := 11, tracked_layouts := [] }, acquired := true },
        { image_state := some { image := 12, tracked_layouts := [] }, acquired := true },
        { image_state := some { image := 13, tracked_layouts := [] }, acquired := true } ],
    surface := some { capabilities := { minImageCount := 2 } }, max_present_id := 0 }

/-- An image in two tracked layouts: present-src and an arbitrary layout 5. -/
def presentedImage : IMAGE_STATE :=
  { image := 7, tracked_layouts := [VK_IMAGE_LAYOUT_PRESENT_SRC_KHR, 5] }

/-- A one-image swapchain whose image is acquired and tracked by
`presentedImage`. -/
def acquiredImageSwapchain : SWAPCHAIN_NODE :=
  { createInfo := sampleCreateInfo, retired := false, acquired_images := 1,
    images := [{ image_state := some presentedImage, acquired := true }],
    surface := none, max_present_id := 0 }

/-- A retired swapchain whose first image record holds image handle 1 and
whose second record has no image state. -/
def retiredSwapchain : SWAPCHAIN_NODE :=
  { createInfo := sampleCreateInfo, retired := true, acquired_images := 0,
    images :=
      [ { image_state := some { image := 1, tracked_layouts := [] }, acquired := false },
        { image_state := none, acquired := false } ],
    surface := none, max_present_id := 0 }

/-- A queue-family-transfer map holding entries for image handles 1 and 2. -/
def sampleQfoMap : List (Nat × Nat) := [(1, 10), (2, 20)]

/-- A handle registry that resolves handle 5 to `retiredSwapchain`. -/
def sampleRegistry : Nat → Option SWAPCHAIN_NODE :=
  fun h => if h = 5 then some retiredSwapchain else none

/-- A present-id structure carrying ids 5 and 0 for two swapchain entries. -/
def samplePresentIdInfo : VkPresentIdKHR := { swapchainCount := 2, pPresentIds := [5, 0] }

/-- A present-region rectangle with a negative x offset. -/
def negativeOffsetRect : VkRectLayerKHR :=
  { offsetX := -2, offsetY := 0, extentWidth := 1, extentHeight := 1, layer := 0 }

/-- A present-region rectangle lying inside a 10x10 extent. -/
def insideRect : VkRectLayerKHR :=
  { offsetX := 2, offsetY := 3, extentWidth := 4, extentHeight := 5, layer := 0 }

/-! ## Helper lemmas -/

/-- Unsigned 32-bit subtraction agrees with natural subtraction when the
minuend is in range and at least the subtrahend. -/
theorem sub32_of_le (a b : Nat) (ha : a < UINT32_LIMIT) (hb : b ≤ a) : sub32 a b = a - b := by
  unfold sub32 UINT32_LIMIT at *
  omega

/-- Unsigned 32-bit subtraction wraps when the subtrahend exceeds the
in-range minuend. -/
theorem sub32_wrap (a b : Nat) (hab : a < b) (hb : b < UINT32_LIMIT) :
    sub32 a b = a + (UINT32_LIMIT - b) := by
  unfold sub32 UINT32_LIMIT at *
  omega

/-! ## Claim theorems -/

/-- C1: for a barrier carrying queue-family fields, `IsReleaseOp` holds
exactly when the barrier is an actual ownership-transfer barrier and the
owning pool's queue family equals its source family, and `IsAcquireOp`
exactly when the pool's family equals its destination family; a barrier with
equal source and destination families is neither; the barrier kinds without
queue-family fields are never a release or an acquire. -/
theorem isReleaseOp_isAcquireOp_classification (cb : CMD_BUFFER_STATE) (b : QFBarrier) :
    (cb.IsReleaseOp (.withQueueFamilies b) = true ↔
      IsTransferOp b = true ∧ cb.command_pool.queueFamilyIndex = b.srcQueueFamilyIndex) ∧
    (cb.IsAcquireOp (.withQueueFamilies b) = true ↔
      IsTransferOp b = true ∧ cb.command_pool.queueFamilyIndex = b.dstQueueFamilyIndex) ∧
    (b.srcQueueFamilyIndex = b.dstQueueFamilyIndex →
      cb.IsReleaseOp (.withQueueFamilies b) = false ∧
      cb.IsAcquireOp (.withQueueFamilies b) = false) ∧
    (∀ nb : Barrier, nb.hasQueueFamilies = false →
      cb.IsReleaseOp nb = false ∧ cb.IsAcquireOp nb = false) := by
  refine ⟨?_, ?_, ?_, ?_⟩
  · simp [CMD_BUFFER_STATE.IsReleaseOp]
  · simp [CMD_BUFFER_STATE.IsAcquireOp]
  · intro h
    have htr : IsTransferOp b = false := by
      simp [IsTransferOp, h]
    simp [CMD_BUFFER_STATE.IsReleaseOp, CMD_BUFFER_STATE.IsAcquireOp, htr]
  · intro nb hnb
    cases nb with
    | withQueueFamilies q => simp [Barrier.hasQueueFamilies] at hnb
    | memoryBarrier => exact ⟨rfl, rfl⟩
    | memoryBarrier2KHR => exact ⟨rfl, rfl⟩
    | subpassDependency2 => exact ⟨rfl, rfl⟩

/-- Witness for C1: on `sampleCmdBuffer` (pool family 1), a 1→2 transfer
barrier is a release and not an acquire, a 2→1 barrier is an acquire, a 1→1
barrier is neither, and a `VkMemoryBarrier` is neither. -/
theorem isReleaseOp_isAcquireOp_classification_witness :
    sampleCmdBuffer.IsReleaseOp
        (.withQueueFamilies { srcQueueFamilyIndex := 1, dstQueueFamilyIndex := 2 }) = true ∧
    sampleCmdBuffer.IsAcquireOp
        (.withQueueFamilies { srcQueueFamilyIndex := 2, dstQueueFamilyIndex := 1 }) = true ∧
    sampleCmdBuffer.IsReleaseOp
        (.withQueueFamilies { srcQueueFamilyIndex := 1, dstQueueFamilyIndex := 1 }) = false ∧
    sampleCmdBuffer.IsAcquireOp
        (.withQueueFamilies { srcQueueFamilyIndex := 1, dstQueueFamilyIndex := 1 }) = false ∧
    sampleCmdBuffer.IsReleaseOp .memoryBarrier = false ∧
    sampleCmdBuffer.IsAcquireOp .memoryBarrier = false := by
  refine ⟨?_, ?_, ?_, ?_, ?_, ?_⟩
  · exact (isReleaseOp_isAcquireOp_classification sampleCmdBuffer
      { srcQueueFamilyIndex := 1, dstQueueFamilyIndex := 2 }).1.mpr (by decide)
  · exact (isReleaseOp_isAcquireOp_classification sampleCmdBuffer
      { srcQueueFamilyIndex := 2, dstQueueFamilyIndex := 1 }).2.1.mpr (by decide)
  · exact ((isReleaseOp_isAcquireOp_classification sampleCmdBuffer
      { srcQueueFamilyIndex := 1, dstQueueFamilyIndex := 1 }).2.2.1 rfl).1
  · exact ((isReleaseOp_isAcquireOp_classification sampleCmdBuffer
      { srcQueueFamilyIndex := 1, dstQueueFamilyIndex := 1 }).2.2.1 rfl).2
  · exact ((isReleaseOp_isAcquireOp_classification sampleCmdBuffer
      { srcQueueFamilyIndex := 1, dstQueueFamilyIndex := 1 }).2.2.2 .memoryBarrier rfl).1
  · exact ((isReleaseOp_isAcquireOp_classification sampleCmdBuffer
      { srcQueueFamilyIndex := 1, dstQueueFamilyIndex := 1 }).2.2.2 .memoryBarrier rfl).2

/-- C8: after `BindPipeline bp p`, the slot at `bp` holds `p` as its bound
pipeline and the pipeline-bound flag is set; every other bind point's slot
and every other modelled field of the command buffer are unchanged. -/
theorem bindPipelineEffect (cb : CMD_BUFFER_STATE) (bp : LvlBindPoint) (p : Option Nat) :
    ((cb.BindPipeline bp p).lastBound bp).pipeline_state = p ∧
    (cb.BindPipeline bp p).pipeline_bound = true ∧
    (∀ b : LvlBindPoint, b ≠ bp → (cb.BindPipeline bp p).lastBound b = cb.lastBound b) ∧
    (cb.BindPipeline bp p).command_pool = cb.command_pool ∧
    (cb.BindPipeline bp p).state = cb.state ∧
    (cb.BindPipeline bp p).commandCount = cb.commandCount ∧
    (cb.BindPipeline bp p).submitCount = cb.submitCount ∧
    (cb.BindPipeline bp p).status = cb.status ∧
    (cb.BindPipeline bp p).static_status = cb.static_status ∧
    (cb.BindPipeline bp p).dynamic_status = cb.dynamic_status ∧
    (cb.BindPipeline bp p).has_draw_cmd = cb.has_draw_cmd := by
  refine ⟨?_, rfl, ?_, rfl, rfl, rfl, rfl, rfl, rfl, rfl, rfl⟩
  · simp [CMD_BUFFER_STATE.BindPipeline]
  · intro b hb
    simp [CMD_BUFFER_STATE.BindPipeline, hb]

/-- Witness for C8: binding pipeline 7 at the graphics bind point of
`sampleCmdBuffer` records it there, sets the flag, and leaves the compute
slot untouched. -/
theorem bindPipelineEffect_witness :
    ((sampleCmdBuffer.BindPipeline .graphics (some 7)).lastBound .graphics).pipeline_state
        = some 7 ∧
    (sampleCmdBuffer.BindPipeline .graphics (some 7)).pipeline_bound = true ∧
    (sampleCmdBuffer.BindPipeline .graphics (some 7)).lastBound .compute
        = sampleCmdBuffer.lastBound .compute :=
  ⟨(bindPipelineEffect sampleCmdBuffer .graphics (some 7)).1,
   (bindPipelineEffect sampleCmdBuffer .graphics (some 7)).2.1,
   (bindPipelineEffect sampleCmdBuffer .graphics (some 7)).2.2.1 .compute (by decide)⟩

/-- C2 (counterexample): on `unpopulatedSwapchain` (no images queried yet,
one image acquired, surface `minImageCount = 1`) with an unbounded-wait
timeout, the code does not report the too-many-images-acquired error even
though the acquired count strictly exceeds the arithmetic difference
`imageCount - minImageCount` (both over the integers and with truncated
natural subtraction), so the claimed biconditional fails. -/
theorem acquireImageBound_counterexample :
    ¬ (((ValidateAcquireNextImage defaultConfig none false (some unpopulatedSwapchain)
          UINT64_MAX).too_many_acquired = true) ↔
        ((unpopulatedSwapchain.acquired_images : Int) >
          (unpopulatedSwapchain.images.length : Int) -
            ((acquireCaps defaultConfig unpopulatedSwapchain).minImageCount : Int))) := by
  decide

/-- C2 (amended): for a known swapchain and an unbounded-wait timeout, the
too-many-images-acquired error is reported exactly when `acquired_images`
strictly exceeds the image count minus `minImageCount` computed in unsigned
32-bit arithmetic; when `minImageCount` is at most the image count this is
the plain arithmetic difference; and a bounded timeout is never flagged by
this check. -/
theorem acquireImageBound_uint32 (cc : CoreChecksConfig) (sem : Option SEMAPHORE_STATE)
    (fe : Bool) (sw : SWAPCHAIN_NODE) (timeout : Nat) :
    ((ValidateAcquireNextImage cc sem fe (some sw) timeout).too_many_acquired = true ↔
      timeout = UINT64_MAX ∧
        sw.acquired_images >
          sub32 (sw.images.length % UINT32_LIMIT) (acquireCaps cc sw).minImageCount) ∧
    ((acquireCaps cc sw).minImageCount ≤ sw.images.length → sw.images.length < UINT32_LIMIT →
      ((ValidateAcquireNextImage cc sem fe (some sw) timeout).too_many_acquired = true ↔
        timeout = UINT64_MAX ∧
          sw.acquired_images > sw.images.length - (acquireCaps cc sw).minImageCount)) ∧
    (timeout ≠ UINT64_MAX →
      (ValidateAcquireNextImage cc sem fe (some sw) timeout).too_many_acquired = false) := by
  have hmain :
      (ValidateAcquireNextImage cc sem fe (some sw) timeout).too_many_acquired = true ↔
        timeout = UINT64_MAX ∧
          sw.acquired_images >
            sub32 (sw.images.length % UINT32_LIMIT) (acquireCaps cc sw).minImageCount := by
    simp [ValidateAcquireNextImage, Bool.and_eq_true, beq_iff_eq, decide_eq_true_eq]
  refine ⟨hmain, ?_, ?_⟩
  · intro hle hlen
    rw [hmain, Nat.mod_eq_of_lt hlen,
      sub32_of_le sw.images.length (acquireCaps cc sw).minImageCount hlen hle]
  · intro hne
    rw [← Bool.not_eq_true, hmain]
    exact fun h => hne h.1

/-- Witness for C2 (amended): on `threeImageSwapchain` (3 images,
`minImageCount = 2`, 3 images acquired) an unbounded-wait acquire is flagged,
since 3 > 3 - 2; a bounded-timeout acquire on the same state is not. -/
theorem acquireImageBound_uint32_witness :
    ((ValidateAcquireNextImage defaultConfig none false (some threeImageSwapchain)
        UINT64_MAX).too_many_acquired = true) ∧
    ((ValidateAcquireNextImage defaultConfig none false (some threeImageSwapchain)
        0).too_many_acquired = false) :=
  ⟨((acquireImageBound_uint32 defaultConfig none false threeImageSwapchain UINT64_MAX).2.1
      (by decide) (by decide)).mpr ⟨rfl, by decide⟩,
   (acquireImageBound_uint32 defaultConfig none false threeImageSwapchain 0).2.2 (by decide)⟩

/-- C9 (counterexample): on `hugeMinCapsSwapchain` the surface capability
`minImageCount = 2^32 - 1` exceeds the image count 0, yet an unbounded-wait
acquire with 2 images acquired IS flagged (the wrapped bound is the small
value 1), so the error is not unreportable for every acquired count. -/
theorem acquireBoundWrap_counterexample :
    (acquireCaps defaultConfig hugeMinCapsSwapchain).minImageCount >
        hugeMinCapsSwapchain.images.length ∧
    (ValidateAcquireNextImage defaultConfig none false (some hugeMinCapsSwapchain)
        UINT64_MAX).too_many_acquired = true := by
  decide

/-- C9 (amended): when `minImageCount` exceeds the swapchain's (32-bit) image
count, the unsigned 32-bit subtraction wraps to the value
`imageCount + 2^32 - minImageCount`, and the too-many-images-acquired error
cannot be reported for any timeout as long as `acquired_images` does not
exceed that wrapped bound (which covers every realistic acquired count, since
the bound is huge for any realistic `minImageCount`). -/
theorem acquireBoundWrap (cc : CoreChecksConfig) (sem : Option SEMAPHORE_STATE)
    (fe : Bool) (sw : SWAPCHAIN_NODE) (timeout : Nat)
    (hgt : sw.images.length % UINT32_LIMIT < (acquireCaps cc sw).minImageCount)
    (hlt : (acquireCaps cc sw).minImageCount < UINT32_LIMIT)
    (hacq : sw.acquired_images ≤
      sw.images.length % UINT32_LIMIT + (UINT32_LIMIT - (acquireCaps cc sw).minImageCount)) :
    sub32 (sw.images.length % UINT32_LIMIT) (acquireCaps cc sw).minImageCount =
      sw.images.length % UINT32_LIMIT + (UINT32_LIMIT - (acquireCaps cc sw).minImageCount) ∧
    (ValidateAcquireNextImage cc sem fe (some sw) timeout).too_many_acquired = false := by
  have hwrap := sub32_wrap (sw.images.length % UINT32_LIMIT)
    (acquireCaps cc sw).minImageCount hgt hlt
  refine ⟨hwrap, ?_⟩
  simp only [ValidateAcquireNextImage, hwrap, Bool.and_eq_false_iff]
  right
  simpa [Nat.not_lt] using hacq

/-- Witness for C9 (amended): on `unpopulatedSwapchain` (`minImageCount = 1`
exceeds the image count 0), an unbounded-wait acquire with one image already
acquired is not flagged, the wrapped bound being `2^32 - 1`. -/
theorem acquireBoundWrap_witness :
    sub32 (unpopulatedSwapchain.images.length % UINT32_LIMIT)
        (acquireCaps defaultConfig unpopulatedSwapchain).minImageCount =
      unpopulatedSwapchain.images.length % UINT32_LIMIT +
        (UINT32_LIMIT - (acquireCaps defaultConfig unpopulatedSwapchain).minImageCount) ∧
    (ValidateAcquireNextImage defaultConfig none false (some unpopulatedSwapchain)
        UINT64_MAX).too_many_acquired = false :=
  acquireBoundWrap defaultConfig none false unpopulatedSwapchain UINT64_MAX
    (by decide) (by decide) (by decide)

/-- C5: for a known swapchain, the acquire-next-image retirement flag and
the wait-for-present retirement flag equal the swapchain's retired bit (so a
retired swapchain is flagged and a non-retired one is not), and creating a
new swapchain over it as `oldSwapchain` logs the retirement error exactly
when it is retired. -/
theorem retiredSwapchainChecks (cc : CoreChecksConfig) (sem : Option SEMAPHORE_STATE)
    (fe : Bool) (sw : SWAPCHAIN_NODE) (timeout : Nat) (presentWaitFeature : Bool)
    (presentId waitTimeout : Nat) (createInfoSurface : Nat) :
    ((ValidateAcquireNextImage cc sem fe (some sw) timeout).swapchain_retired = sw.retired) ∧
    ((PreCallValidateWaitForPresentKHR presentWaitFeature (some sw) presentId
        waitTimeout).swapchain_retired = sw.retired) ∧
    (sw.retired = true →
      SwapchainCreateError.oldSwapchainRetired ∈
        validateCreateSwapchainOldSwapchain (some sw) createInfoSurface) ∧
    (sw.retired = false →
      SwapchainCreateError.oldSwapchainRetired ∉
        validateCreateSwapchainOldSwapchain (some sw) createInfoSurface) := by
  refine ⟨rfl, rfl, ?_, ?_⟩
  · intro h
    simp [validateCreateSwapchainOldSwapchain, h]
  · intro h
    intro hmem
    simp only [validateCreateSwapchainOldSwapchain, h, List.mem_append] at hmem
    rcases hmem with hmem | hmem
    · split at hmem <;> simp_all
    · simp_all

/-- Witness for C5: `retiredSwapchain` is flagged by the acquire and
wait-for-present retirement checks and as an `oldSwapchain`, while the
non-retired `unpopulatedSwapchain` is not flagged as an `oldSwapchain`. -/
theorem retiredSwapchainChecks_witness :
    (ValidateAcquireNextImage defaultConfig none false (some retiredSwapchain)
        0).swapchain_retired = true ∧
    (PreCallValidateWaitForPresentKHR true (some retiredSwapchain) 1
        0).swapchain_retired = true ∧
    SwapchainCreateError.oldSwapchainRetired ∈
      validateCreateSwapchainOldSwapchain (some retiredSwapchain) 1 ∧
    SwapchainCreateError.oldSwapchainRetired ∉
      validateCreateSwapchainOldSwapchain (some unpopulatedSwapchain) 1 :=
  ⟨(retiredSwapchainChecks defaultConfig none false retiredSwapchain 0 true 1 0 1).1,
   (retiredSwapchainChecks defaultConfig none false retiredSwapchain 0 true 1 0 1).2.1,
   (retiredSwapchainChecks defaultConfig none false retiredSwapchain 0 true 1 0 1).2.2.1 rfl,
   (retiredSwapchainChecks defaultConfig none false unpopulatedSwapchain 0 true 1 0 1).2.2.2 rfl⟩

/-- C3: for each entry `i` of a `VkPresentIdKHR` structure, the
non-increasing-present-id error is logged exactly when `pPresentIds[i]` is
nonzero and at most the corresponding swapchain's `max_present_id`
watermark; in particular an id strictly above the watermark is not flagged
by this check. -/
theorem presentIdMonotonicityCheck (presentIdFeature : Bool)
    (presentInfoSwapchainCount : Nat) (info : VkPresentIdKHR) (maxPresentId : Nat → Nat)
    (i : Nat) (hi : i < info.swapchainCount) :
    PresentIdError.nonIncreasing i ∈
        presentIdChecks presentIdFeature presentInfoSwapchainCount info maxPresentId ↔
      info.pPresentIds.getD i 0 ≠ 0 ∧ info.pPresentIds.getD i 0 ≤ maxPresentId i := by
  constructor
  · intro hmem
    simp only [presentIdChecks, List.mem_append] at hmem
    rcases hmem with (h1 | h2) | h3
    · split at h1
      · obtain ⟨a, _, hsome⟩ := List.mem_filterMap.mp h1
        split at hsome <;> simp_all
      · simp at h1
    · split at h2 <;> simp_all
    · obtain ⟨a, _, hsome⟩ := List.mem_filterMap.mp h3
      split at hsome
      · rename_i hcond
        obtain rfl : a = i := by simpa using hsome
        exact hcond
      · simp at hsome
  · intro hcond
    simp only [presentIdChecks, List.mem_append]
    right
    refine List.mem_filterMap.mpr ⟨i, List.mem_range.mpr hi, ?_⟩
    rw [if_pos ⟨hcond.1, hcond.2⟩]

/-- Witness for C3: in `samplePresentIdInfo` with a watermark of 5, entry 0
(id 5) is flagged as non-increasing. -/
theorem presentIdMonotonicityCheck_witness :
    PresentIdError.nonIncreasing 0 ∈
      presentIdChecks true 2 samplePresentIdInfo (fun _ => 5) :=
  (presentIdMonotonicityCheck true 2 samplePresentIdInfo (fun _ => 5) 0 (by decide)).mpr
    (by decide)

/-- C10: an entry whose present id is 0 is exempt from the monotonicity
check: no non-increasing error is logged for it, whatever the watermark. -/
theorem presentIdZeroExempt (presentIdFeature : Bool) (presentInfoSwapchainCount : Nat)
    (info : VkPresentIdKHR) (maxPresentId : Nat → Nat) (i : Nat)
    (h0 : info.pPresentIds.getD i 0 = 0) :
    PresentIdError.nonIncreasing i ∉
      presentIdChecks presentIdFeature presentInfoSwapchainCount info maxPresentId := by
  intro hmem
  simp only [presentIdChecks, List.mem_append] at hmem
  rcases hmem with (h1 | h2) | h3
  · split at h1
    · obtain ⟨a, _, hsome⟩ := List.mem_filterMap.mp h1
      split at hsome <;> simp_all
    · simp at h1
  · split at h2 <;> simp_all
  · obtain ⟨a, _, hsome⟩ := List.mem_filterMap.mp h3
    split at hsome
    · rename_i hcond
      obtain rfl : a = i := by simpa using hsome
      exact hcond.1 h0
    · simp at hsome

/-- Witness for C10: entry 1 of `samplePresentIdInfo` carries id 0 and is
not flagged even against a huge watermark. -/
theorem presentIdZeroExempt_witness :
    PresentIdError.nonIncreasing 1 ∉
      presentIdChecks true 2 samplePresentIdInfo (fun _ => 1000) :=
  presentIdZeroExempt true 2 samplePresentIdInfo (fun _ => 1000) 1 (by decide)

/-- C4: presenting entry `i` logs an index-too-large error when the image
index is at least the swapchain's image count; a not-acquired error when the
record at a valid index has no image state or its acquired flag is unset;
and, for a valid acquired image, an invalid-layout error exactly for each
tracked layout that is neither present-src nor (with the
shared-presentable-image extension) shared-present. -/
theorem presentedImageChecks (ext : Bool) (sw : SWAPCHAIN_NODE) (idx : Nat) :
    (sw.images.length ≤ idx →
      validatePresentedImage ext sw idx = [.imageIndexTooLarge]) ∧
    (idx < sw.images.length →
      ((sw.images.getD idx { image_state := none, acquired := false }).image_state = none ∨
        (sw.images.getD idx { image_state := none, acquired := false }).acquired = false) →
      validatePresentedImage ext sw idx = [.imageNotAcquired]) ∧
    (∀ st : IMAGE_STATE, idx < sw.images.length →
      (sw.images.getD idx { image_state := none, acquired := false }).image_state = some st →
      (sw.images.getD idx { image_state := none, acquired := false }).acquired = true →
      ∀ layout : Nat,
        (PresentImageError.invalidLayout layout ∈ validatePresentedImage ext sw idx ↔
          layout ∈ st.tracked_layouts ∧ layout ≠ VK_IMAGE_LAYOUT_PRESENT_SRC_KHR ∧
            (ext = false ∨ layout ≠ VK_IMAGE_LAYOUT_SHARED_PRESENT_KHR))) := by
  refine ⟨?_, ?_, ?_⟩
  · intro h
    simp [validatePresentedImage, h]
  · intro hlt hbad
    simp only [validatePresentedImage]
    rw [if_neg (Nat.not_le.mpr hlt)]
    rcases hbad with hnone | hacq
    · rw [hnone]
    · cases hst : (sw.images.getD idx { image_state := none, acquired := false }).image_state with
      | none => rfl
      | some st =>
        rw [hacq]
        rfl
  · intro st hlt hst hacq layout
    simp only [validatePresentedImage]
    rw [if_neg (Nat.not_le.mpr hlt), hst]
    simp only [hacq, Bool.not_true, Bool.false_eq_true, if_false]
    constructor
    · intro hmem
      obtain ⟨l, hl, hsome⟩ := List.mem_filterMap.mp hmem
      split at hsome
      · rename_i hcond
        obtain rfl : l = layout := by simpa using hsome
        refine ⟨hl, hcond.1, ?_⟩
        rcases hcond.2 with hext | hne
        · exact Or.inl (by simpa using hext)
        · exact Or.inr hne
      · simp at hsome
    · rintro ⟨hl, hne, hshared⟩
      have hcond : layout ≠ VK_IMAGE_LAYOUT_PRESENT_SRC_KHR ∧
          ((!ext) = true ∨ layout ≠ VK_IMAGE_LAYOUT_SHARED_PRESENT_KHR) := by
        refine ⟨hne, ?_⟩
        rcases hshared with h | h
        · exact Or.inl (by simp [h])
        · exact Or.inr h
      exact List.mem_filterMap.mpr ⟨layout, hl, by rw [if_pos hcond]⟩

/-- Witness for C4: on `acquiredImageSwapchain`, index 1 is too large, and
for the acquired image at index 0 the stray layout 5 is flagged while
present-src is not. -/
theorem presentedImageChecks_witness :
    validatePresentedImage false acquiredImageSwapchain 1 = [.imageIndexTooLarge] ∧
    (PresentImageError.invalidLayout 5 ∈ validatePresentedImage false acquiredImageSwapchain 0) ∧
    (PresentImageError.invalidLayout VK_IMAGE_LAYOUT_PRESENT_SRC_KHR ∉
      validatePresentedImage false acquiredImageSwapchain 0) :=
  ⟨(presentedImageChecks false acquiredImageSwapchain 1).1 (by decide),
   ((presentedImageChecks false acquiredImageSwapchain 0).2.2 presentedImage (by decide)
       (by decide) (by decide) 5).mpr (by decide),
   fun h =>
     absurd (((presentedImageChecks false acquiredImageSwapchain 0).2.2 presentedImage
         (by decide) (by decide) (by decide) VK_IMAGE_LAYOUT_PRESENT_SRC_KHR).mp h).2.1 (by decide)⟩

/-- C6 (amended): the rectangle is swapped (offsets and extents exchanged)
exactly when the preTransform intersects the 90/270-rotation mask, and a
width/height error is logged exactly when the swapped rectangle's
`offset + extent` sum, computed in unsigned 32-bit arithmetic, exceeds the
corresponding `imageExtent` dimension; for a nonnegative offset whose sum
does not overflow, the unsigned sum agrees with the arithmetic one. -/
theorem presentRegionRect_uint32 (ci : VkSwapchainCreateInfo) (r : VkRectLayerKHR) :
    (PresentRegionError.widthExceeded ∈ validatePresentRegionRect ci r ↔
      u32sum (swapForPreTransform ci.preTransform r).offsetX
        (swapForPreTransform ci.preTransform r).extentWidth > ci.imageExtentWidth) ∧
    (PresentRegionError.heightExceeded ∈ validatePresentRegionRect ci r ↔
      u32sum (swapForPreTransform ci.preTransform r).offsetY
        (swapForPreTransform ci.preTransform r).extentHeight > ci.imageExtentHeight) ∧
    (ci.preTransform &&& rotationSwapMask = 0 → swapForPreTransform ci.preTransform r = r) ∧
    (ci.preTransform &&& rotationSwapMask ≠ 0 →
      (swapForPreTransform ci.preTransform r).offsetX = r.offsetY ∧
      (swapForPreTransform ci.preTransform r).offsetY = r.offsetX ∧
      (swapForPreTransform ci.preTransform r).extentWidth = r.extentHeight ∧
      (swapForPreTransform ci.preTransform r).extentHeight = r.extentWidth) ∧
    (∀ offset : Int, ∀ extent bound : Nat, 0 ≤ offset →
      offset + (extent : Int) < ((UINT32_LIMIT : Nat) : Int) →
      (u32sum offset extent > bound ↔ offset + (extent : Int) > (bound : Int))) := by
  refine ⟨?_, ?_, ?_, ?_, ?_⟩
  · simp only [validatePresentRegionRect, List.mem_append]
    constructor
    · rintro ((h1 | h2) | h3)
      · split at h1
        · assumption
        · simp at h1
      · split at h2 <;> simp_all
      · split at h3 <;> simp_all
    · intro hA
      left
      left
      rw [if_pos hA]
      exact List.mem_singleton_self _
  · simp only [validatePresentRegionRect, List.mem_append]
    constructor
    · rintro ((h1 | h2) | h3)
      · split at h1 <;> simp_all
      · split at h2
        · assumption
        · simp at h2
      · split at h3 <;> simp_all
    · intro hB
      left
      right
      rw [if_pos hB]
      exact List.mem_singleton_self _
  · intro h
    simp [swapForPreTransform, h]
  · intro h
    simp [swapForPreTransform, h]
  · intro offset extent bound hnn hlt
    unfold u32sum UINT32_LIMIT at *
    omega

/-- Witness for C6 (amended): with a ROTATE_90 preTransform the rectangle is
swapped; with the identity preTransform it is not; and for the in-bounds
rectangle `insideRect` the unsigned sum 2 + 4 agrees with the arithmetic
sum. -/
theorem presentRegionRect_uint32_witness :
    (swapForPreTransform 2 insideRect).offsetX = insideRect.offsetY ∧
    swapForPreTransform 1 insideRect = insideRect ∧
    (u32sum 2 4 > 10 ↔ (2 : Int) + (4 : Nat) > ((10 : Nat) : Int)) :=
  ⟨((presentRegionRect_uint32 { sampleCreateInfo with preTransform := 2 } insideRect).2.2.2.1
      (by decide)).1,
   (presentRegionRect_uint32 sampleCreateInfo insideRect).2.2.1 (by decide),
   (presentRegionRect_uint32 sampleCreateInfo insideRect).2.2.2.2 2 4 10 (by decide) (by decide)⟩

/-- C6 (counterexample): for `negativeOffsetRect` (offset.x = -2) inside the
10x10 `sampleCreateInfo` extent, the code logs a width error because the
`int32 + uint32` sum wraps to `2^32 - 1`, although the arithmetic sums -1
and 1 do not exceed the extent, so the claimed biconditional fails. -/
theorem presentRegionRect_counterexample :
    ¬ ((PresentRegionError.widthExceeded ∈
          validatePresentRegionRect sampleCreateInfo negativeOffsetRect ∨
        PresentRegionError.heightExceeded ∈
          validatePresentRegionRect sampleCreateInfo negativeOffsetRect) ↔
        ((-2 : Int) + 1 > (10 : Int) ∨ (0 : Int) + 1 > (10 : Int))) := by
  decide

/-- Unfolding lemma: erasing a swapchain's image keys proceeds one image
record at a time. -/
theorem eraseQfoKeysOfSwapchainImages_cons {α : Type} (m : List (Nat × α))
    (img : SWAPCHAIN_IMAGE) (rest : List SWAPCHAIN_IMAGE) :
    eraseQfoKeysOfSwapchainImages m (img :: rest) =
      eraseQfoKeysOfSwapchainImages
        (match img.image_state with
          | none => m
          | some image_state => m.filter fun kv => kv.fst ≠ image_state.image)
        rest := rfl

/-- Membership after erasing a swapchain's image keys: an entry survives
exactly when it was present and its key is none of the swapchain's image
handles. -/
theorem mem_eraseQfoKeysOfSwapchainImages {α : Type} (images : List SWAPCHAIN_IMAGE) :
    ∀ (m : List (Nat × α)) (kv : Nat × α),
      kv ∈ eraseQfoKeysOfSwapchainImages m images ↔
        kv ∈ m ∧ kv.fst ∉ swapchainImageKeys images := by
  induction images with
  | nil =>
    intro m kv
    simp [eraseQfoKeysOfSwapchainImages, swapchainImageKeys]
  | cons img rest ih =>
    intro m kv
    rw [eraseQfoKeysOfSwapchainImages_cons]
    cases himg : img.image_state with
    | none =>
      simp only [himg]
      rw [ih]
      simp [swapchainImageKeys, List.filterMap_cons, himg]
    | some st =>
      simp only [himg]
      rw [ih]
      simp only [List.mem_filter, decide_eq_true_eq, swapchainImageKeys,
        List.filterMap_cons, himg, Option.map_some', List.mem_cons, not_or]
      tauto

/-- C7: destroying a non-null swapchain with known state removes from the
queue-family-transfer release map exactly the entries keyed by the handles
of those swapchain images that carry an image state (records without an
image state erase nothing); every other entry survives unchanged. -/
theorem destroySwapchainQfoErase {α : Type} (get : Nat → Option SWAPCHAIN_NODE)
    (m : List (Nat × α)) (swapchain : Nat) (sw : SWAPCHAIN_NODE)
    (hnz : swapchain ≠ 0) (hget : get swapchain = some sw) (kv : Nat × α) :
    kv ∈ PreCallRecordDestroySwapchainKHR get m swapchain ↔
      kv ∈ m ∧ kv.fst ∉ swapchainImageKeys sw.images := by
  unfold PreCallRecordDestroySwapchainKHR
  rw [if_pos hnz, hget]
  exact mem_eraseQfoKeysOfSwapchainImages sw.images m kv

/-- Witness for C7: destroying the swapchain behind handle 5 (whose only
image-state-bearing record holds image 1) erases the entry keyed 1 from
`sampleQfoMap` and keeps the entry keyed 2. -/
theorem destroySwapchainQfoErase_witness :
    (2, 20) ∈ PreCallRecordDestroySwapchainKHR sampleRegistry sampleQfoMap 5 ∧
    (1, 10) ∉ PreCallRecordDestroySwapchainKHR sampleRegistry sampleQfoMap 5 :=
  ⟨(destroySwapchainQfoErase sampleRegistry sampleQfoMap 5 retiredSwapchain (by decide)
      (by decide) (2, 20)).mpr ⟨by decide, by decide⟩,
   fun h =>
     absurd (by decide : (1 : Nat) ∈ swapchainImageKeys retiredSwapchain.images)
       ((destroySwapchainQfoErase sampleRegistry sampleQfoMap 5 retiredSwapchain (by decide)
          (by decide) (1, 10)).mp h).2⟩

end VVL
